import Mathlib

/-!
Shallow embedding of the telegram countdown bot repository
(src/config.py, src/models.py, src/main.py).

Datetimes are modelled as instants: integers counting seconds since the Unix
epoch.  A pytz timezone is modelled by a fixed UTC offset in seconds
(daylight saving is abstracted away; only how localize and astimezone act on
instants matters for the theorems below).  The difference of two aware
datetimes in Python is the difference of their instants, independent of the
timezones they are rendered in, and astimezone keeps the instant and changes
only the rendering; both facts are baked into the model by keeping instants.

The store (models.py, table countdown_events) is a list of rows in insertion
order; query(...).filter(name == n).first() is the first list element with
that name, filter(chat_id == c).all() keeps list order.

Each handler of main.py is a function from the store and its inputs to a
HandlerResult: the updated store, the list of user visible replies the
handler sent, and whether an exception escaped the handler boundary.  The
Bool argument storeFail injects a store failure (connectivity or query
failure) at the point where the handler first queries the store; the source
catches it with the per handler `except Exception` and replies a generic
error.  String literals follow main.py; the single quote characters that the
source puts around interpolated names are elided.
-/

namespace CountdownBot

/-- Process default timezone, config.py line 14 (env default "UTC"). -/
def TIMEZONE : String := "UTC"

/-- Common timezones for quick selection, main.py lines 24-31. -/
def COMMON_TIMEZONES : List String :=
  ["Europe/Berlin", "UTC", "America/New_York", "Europe/London",
   "Asia/Tokyo", "Australia/Sydney"]

/-- UTC offset in seconds of each timezone name the bot offers, standing in
for the pytz timezone objects.  Standard (winter) offsets; daylight saving
is abstracted away, the theorems only use that localize shifts an instant by
the offset while astimezone leaves it unchanged. -/
def tzOffset (tz : String) : Int :=
  if tz == "UTC" then 0
  else if tz == "Europe/Berlin" then 3600
  else if tz == "America/New_York" then -18000
  else if tz == "Europe/London" then 0
  else if tz == "Asia/Tokyo" then 32400
  else if tz == "Australia/Sydney" then 36000
  else 0

/-- A civil date as parsed from a YYYY-MM-DD command argument. -/
structure Date where
  year : Nat
  month : Nat
  day : Nat
deriving DecidableEq, Repr

/-- Leap year rule of the proleptic Gregorian calendar. -/
def isLeap (y : Nat) : Bool :=
  y % 4 == 0 && (y % 100 != 0 || y % 400 == 0)

/-- Length of a month, as datetime validates day-of-month. -/
def daysInMonth (y m : Nat) : Nat :=
  if m == 2 then (if isLeap y then 29 else 28)
  else if m == 4 || m == 6 || m == 9 || m == 11 then 30
  else 31

/-- Python str.split(sep) for a one character separator: the maximal runs
between occurrences of the separator, in order, keeping empty runs, so that
for instance splitting the empty string yields one empty part. -/
def splitOnChar (sep : Char) : List Char → List (List Char)
  | [] => [[]]
  | c :: rest =>
    let r := splitOnChar sep rest
    if c = sep then [] :: r
    else
      match r with
      | [] => [[c]]
      | g :: gs => (c :: g) :: gs

/-- Python s.split(sep) on a string, by way of its character list. -/
def splitString (sep : Char) (s : String) : List String :=
  (splitOnChar sep s.data).map String.mk

/-- Decimal value of a run of digit characters. -/
def digitsToNat (cs : List Char) : Nat :=
  cs.foldl (fun acc c => acc * 10 + (c.toNat - 48)) 0

/-- datetime.strptime(s, "%Y-%m-%d"): three dash separated decimal fields,
year of one to four digits and at least 1, month and day of one or two
digits and in range for the calendar.  Returns the parsed civil date, none
when datetime.strptime raises ValueError (main.py lines 116-122). -/
def parseDate (s : String) : Option Date :=
  match splitString '-' s with
  | [ys, ms, ds] =>
    if ys.data.all Char.isDigit && ms.data.all Char.isDigit && ds.data.all Char.isDigit
        && 1 ≤ ys.data.length && ys.data.length ≤ 4
        && 1 ≤ ms.data.length && ms.data.length ≤ 2
        && 1 ≤ ds.data.length && ds.data.length ≤ 2 then
      let y := digitsToNat ys.data
      let m := digitsToNat ms.data
      let d := digitsToNat ds.data
      if 1 ≤ y && 1 ≤ m && m ≤ 12 && 1 ≤ d && d ≤ daysInMonth y m then
        some ⟨y, m, d⟩
      else none
    else none
  | _ => none

/-- Days from 1970-01-01 to the given civil date (standard era/year-of-era
computation for the proleptic Gregorian calendar). -/
def daysFromCivil (dt : Date) : Int :=
  let y : Int := (dt.year : Int) - (if dt.month ≤ 2 then 1 else 0)
  let m : Int := dt.month
  let d : Int := dt.day
  let era : Int := (if 0 ≤ y then y else y - 399) / 400
  let yoe : Int := y - era * 400
  let doy : Int := (153 * (m + (if 2 < m then -3 else 9)) + 2) / 5 + d - 1
  let doe : Int := yoe * 365 + yoe / 4 - yoe / 100 + doy
  era * 146097 + doe - 719468

/-- pytz.timezone(tz).localize(midnight of dt): the instant at which the
civil date dt begins in timezone tz.  strptime yields midnight (no
time-of-day component), and localize pins that wall-clock reading to the
timezone, shifting the naive reading by the UTC offset. -/
def midnightInstant (dt : Date) (tz : String) : Int :=
  daysFromCivil dt * 86400 - tzOffset tz

/-- Python datetime.timedelta at second granularity, as produced by
subtracting two aware datetimes: days is the floor of the total seconds by
86400, seconds the remainder in [0, 86400).  For a positive divisor the Int
division and remainder of Lean are exactly the floor division and remainder
of Python. -/
structure Timedelta where
  days : Int
  seconds : Int
deriving DecidableEq, Repr

/-- Normalisation a Python timedelta performs on construction. -/
def Timedelta.ofSeconds (t : Int) : Timedelta :=
  ⟨t / 86400, t % 86400⟩

/-- target_date - now of main.py lines 164-168 (and 204-207, 281-284): both
operands are aware datetimes, datetime.now(event_tz) and
target_date.astimezone(event_tz) hold instants, astimezone keeps the
instant, and subtraction of aware datetimes is subtraction of instants. -/
def remainingSeconds (targetDate now : Int) : Int :=
  targetDate - now

/-- The days/hours/minutes decomposition of main.py lines 174-176 (also
289-291): days = remaining.days, hours = remaining.seconds // 3600,
minutes = (remaining.seconds % 3600) // 60. -/
def countdownParts (t : Int) : Int × Int × Int :=
  let td := Timedelta.ofSeconds t
  (td.days, td.seconds / 3600, td.seconds % 3600 / 60)

/-- A row of the countdown_events table, models.py lines 11-24. -/
structure CountdownEvent where
  id : Nat
  name : String
  target_date : Int
  chat_id : Int
  created_by : Int
  daily_reminder : Bool
  created_at : Int
  timezone : String
deriving DecidableEq, Repr

/-- The persistent store: the rows of the single table in insertion order. -/
abbrev Store := List CountdownEvent

/-- db.query(CountdownEvent).filter(CountdownEvent.name == name).first(). -/
def findByName (db : Store) (name : String) : Option CountdownEvent :=
  db.find? (fun e => e.name == name)

/-- Mutating the ORM object returned by first() and committing: the first
row whose name matches is replaced by f of it, every other row is kept. -/
def updateFirst (db : Store) (name : String) (f : CountdownEvent → CountdownEvent) : Store :=
  match db with
  | [] => []
  | e :: rest => if e.name = name then f e :: rest else e :: updateFirst rest name f

/-- db.delete(event) on the row returned by first(): removes the first row
whose name matches, keeps every other row. -/
def deleteFirst (db : Store) (name : String) : Store :=
  match db with
  | [] => []
  | e :: rest => if e.name = name then rest else e :: deleteFirst rest name

/-- The CountdownEvent constructed by set_countdown, main.py lines 129-136:
target date localized at midnight in the process default timezone, reminder
off by default (models.py line 19), timezone defaulted to TIMEZONE. -/
def newCountdownEvent (i : Nat) (name : String) (dt : Date)
    (chat user created : Int) : CountdownEvent :=
  ⟨i, name, midnightInstant dt TIMEZONE, chat, user, false, created, TIMEZONE⟩

/-- Outcome of one handler invocation: the store after it, the user visible
replies it sent in order, and whether an exception propagated past the
handler boundary (out of its try/except/finally). -/
structure HandlerResult where
  store : Store
  replies : List String
  escaped : Bool
deriving DecidableEq, Repr

def provideTimezoneNameMsg : String :=
  "Please provide a countdown name.\nExample: /timezone birthday"

def noCountdownFoundMsg (name : String) : String :=
  "No countdown found with name " ++ name

def selectTimezoneMsg (name : String) : String :=
  "Select timezone for " ++ name ++ ":"

def tzGenericError : String := "An error occurred while setting the timezone."

def timezoneSetMsg (name tz : String) : String :=
  "✅ Timezone for " ++ name ++ " set to " ++ tz

def timezoneNotFoundMsg (name : String) : String :=
  "❌ Countdown " ++ name ++ " not found"

def provideNameDateMsg : String :=
  "Please provide a name and date.\nExample: /set birthday 2024-12-31"

def invalidDateMsg : String := "Invalid date format. Please use YYYY-MM-DD"

def duplicateMsg (name : String) : String :=
  "A countdown with name " ++ name ++ " already exists."

def pad2 (n : Nat) : String := if n < 10 then "0" ++ toString n else toString n

def pad4 (n : Nat) : String :=
  if n < 10 then "000" ++ toString n
  else if n < 100 then "00" ++ toString n
  else if n < 1000 then "0" ++ toString n
  else toString n

/-- target_date.strftime("%Y-%m-%d") of the localized target: the civil date
it was created from, zero padded. -/
def dateToString (dt : Date) : String :=
  pad4 dt.year ++ "-" ++ pad2 dt.month ++ "-" ++ pad2 dt.day

def setOkMsg (name : String) (dt : Date) : String :=
  "✅ Countdown " ++ name ++ " set for " ++ dateToString dt

def setGenericError : String := "An error occurred while setting the countdown."

def provideCountdownNameMsg : String :=
  "Please provide a countdown name.\nExample: /countdown birthday"

def eventPassedMsg (name : String) : String :=
  "❌ The event " ++ name ++ " has already passed!"

def countdownMsg (name tz : String) (days hours minutes : Int) : String :=
  "⏳ Countdown for " ++ name ++ ":\n" ++ "Timezone: " ++ tz ++ "\n" ++
    "Remaining: " ++ toString days ++ " days, " ++ toString hours ++
    " hours, " ++ toString minutes ++ " minutes"

def cdGenericError : String := "An error occurred while getting the countdown."

def noEventsMsg : String := "No countdown events found."

def listHeader : String := "📋 Your countdown events:\n\n"

def listGenericError : String := "An error occurred while listing countdowns."

def provideNameMsg : String := "Please provide a countdown name."

def toggleOkMsg (name : String) (enable : Bool) : String :=
  "✅ Daily reminders for " ++ name ++ " have been " ++
    (if enable then "enabled" else "disabled") ++ "."

def toggleGenericError : String := "An error occurred while toggling the reminder."

def deleteOkMsg (name : String) : String :=
  "✅ Countdown " ++ name ++ " has been deleted."

def deleteGenericError : String := "An error occurred while deleting the countdown."

def reminderMsg (name tz : String) (days hours minutes : Int) : String :=
  "⏰ Daily Reminder for " ++ name ++ ":\n" ++ "Timezone: " ++ tz ++ "\n" ++
    "Remaining: " ++ toString days ++ " days, " ++ toString hours ++
    " hours, " ++ toString minutes ++ " minutes"

/-- logger.error of main.py line 303.  The send of line 298 evaluates
context.bot, and context is an undefined name in the scope of
send_daily_reminders, so every attempt raises NameError before anything is
sent; the caught exception rendered into the log line is that NameError. -/
def sendFailLog (name : String) : String :=
  "Error sending reminder for " ++ name ++ ": name context is not defined"

def dailyJobErrorLog : String := "Error in daily reminders: store failure"

/-- The callback_data of the inline keyboard buttons set_timezone builds,
main.py line 68: one button per common timezone. -/
def tzKeyboardData (name : String) : List String :=
  COMMON_TIMEZONES.map (fun tz => "tz_" ++ name ++ "_" ++ tz)

/-- set_timezone, main.py lines 49-79: argument check, lookup by name, then
the timezone selection keyboard.  A store failure at the query is caught and
answered with the generic error (db is bound by then, so the finally clause
closes it and nothing escapes). -/
def set_timezone (db : Store) (storeFail : Bool) (args : List String) : HandlerResult :=
  match args with
  | [] => ⟨db, [provideTimezoneNameMsg], false⟩
  | name :: _ =>
    if storeFail then ⟨db, [tzGenericError], false⟩
    else
      match findByName db name with
      | none => ⟨db, [noCountdownFoundMsg name], false⟩
      | some _ => ⟨db, [selectTimezoneMsg name], false⟩

/-- timezone_callback, main.py lines 81-101.  query.data.split on the
underscore character must yield exactly three parts for the tuple unpacking
of line 87 to succeed; the first part is discarded without being checked.
When the unpacking raises ValueError (fewer or more than three parts), the
except clause replies the generic error, but db has not been bound yet
(line 88 runs after line 87), so db.close() in the finally clause raises
UnboundLocalError, which escapes the handler. -/
def timezone_callback (db : Store) (storeFail : Bool) (data : String) : HandlerResult :=
  match splitString '_' data with
  | [_, name, tz] =>
    if storeFail then ⟨db, [tzGenericError], false⟩
    else
      match findByName db name with
      | some _ =>
        ⟨updateFirst db name (fun e => { e with timezone := tz }),
          [timezoneSetMsg name tz], false⟩
      | none => ⟨db, [timezoneNotFoundMsg name], false⟩
  | _ => ⟨db, [tzGenericError], true⟩

/-- set_countdown, main.py lines 103-146: argument count check, date parse,
duplicate check, then insertion of the new row (ids are assigned by the
store; modelled as the next integer). -/
def set_countdown (db : Store) (storeFail : Bool) (args : List String)
    (chat user now : Int) : HandlerResult :=
  match args with
  | name :: dateStr :: _ =>
    (match parseDate dateStr with
     | none => ⟨db, [invalidDateMsg], false⟩
     | some dt =>
       if storeFail then ⟨db, [setGenericError], false⟩
       else
         match findByName db name with
         | some _ => ⟨db, [duplicateMsg name], false⟩
         | none =>
           ⟨db ++ [newCountdownEvent (db.length + 1) name dt chat user now],
             [setOkMsg name dt], false⟩)
  | _ => ⟨db, [provideNameDateMsg], false⟩

/-- get_countdown, main.py lines 148-187: lookup, remaining duration, the
already-passed branch on remaining.days < 0, else the formatted
days/hours/minutes reply. -/
def get_countdown (db : Store) (storeFail : Bool) (args : List String)
    (now : Int) : HandlerResult :=
  match args with
  | [] => ⟨db, [provideCountdownNameMsg], false⟩
  | name :: _ =>
    if storeFail then ⟨db, [cdGenericError], false⟩
    else
      match findByName db name with
      | none => ⟨db, [noCountdownFoundMsg name], false⟩
      | some e =>
        let p := countdownParts (remainingSeconds e.target_date now)
        if p.1 < 0 then ⟨db, [eventPassedMsg name], false⟩
        else ⟨db, [countdownMsg name e.timezone p.1 p.2.1 p.2.2], false⟩

/-- The rows the list query returns, main.py lines 194-196: all events of
the invoking chat, in insertion order. -/
def listEvents (db : Store) (chat : Int) : List CountdownEvent :=
  db.filter (fun e => e.chat_id == chat)

/-- One line of the list reply, main.py lines 203-211: remaining days
floored to 0 when negative, and the reminder on/off indicator. -/
def listLine (now : Int) (e : CountdownEvent) : String :=
  let td := Timedelta.ofSeconds (remainingSeconds e.target_date now)
  let days := if 0 ≤ td.days then td.days else 0
  (if e.daily_reminder then "🔔" else "🔕") ++ " " ++ e.name ++ " (" ++
    e.timezone ++ "): " ++ toString days ++ " days remaining\n"

/-- list_countdowns, main.py lines 189-218. -/
def list_countdowns (db : Store) (storeFail : Bool) (chat now : Int) : HandlerResult :=
  if storeFail then ⟨db, [listGenericError], false⟩
  else
    let events := listEvents db chat
    if events.isEmpty then ⟨db, [noEventsMsg], false⟩
    else ⟨db, [listHeader ++ String.join (events.map (listLine now))], false⟩

/-- toggle_reminder, main.py lines 220-245 (enable true for /remind, false
for /unremind, line 320-321). -/
def toggle_reminder (db : Store) (storeFail : Bool) (args : List String)
    (enable : Bool) : HandlerResult :=
  match args with
  | [] => ⟨db, [provideNameMsg], false⟩
  | name :: _ =>
    if storeFail then ⟨db, [toggleGenericError], false⟩
    else
      match findByName db name with
      | none => ⟨db, [noCountdownFoundMsg name], false⟩
      | some _ =>
        ⟨updateFirst db name (fun e => { e with daily_reminder := enable }),
          [toggleOkMsg name enable], false⟩

/-- delete_countdown, main.py lines 247-271. -/
def delete_countdown (db : Store) (storeFail : Bool) (args : List String) : HandlerResult :=
  match args with
  | [] => ⟨db, [provideNameMsg], false⟩
  | name :: _ =>
    if storeFail then ⟨db, [deleteGenericError], false⟩
    else
      match findByName db name with
      | none => ⟨db, [noCountdownFoundMsg name], false⟩
      | some _ => ⟨deleteFirst db name, [deleteOkMsg name], false⟩

/-- Outcome of one run of the daily job: the messages actually delivered as
(chat_id, text) pairs, and the log lines written. -/
structure JobResult where
  sent : List (Int × String)
  logs : List String
deriving DecidableEq, Repr

/-- The per event loop of send_daily_reminders, main.py lines 280-303.  An
event whose remaining.days is negative is skipped.  For a due event the
message of lines 293-295 is built, then the inner try evaluates context.bot
(line 298); context is an undefined name in this scope, so NameError is
raised before any message goes out, the inner except logs it (line 303) and
the loop continues with the next event.  Hence nothing is ever appended to
sent. -/
def remindersLoop (now : Int) : Store → JobResult
  | [] => ⟨[], []⟩
  | e :: rest =>
    let p := countdownParts (remainingSeconds e.target_date now)
    let r := remindersLoop now rest
    if p.1 < 0 then r
    else
      let _message := reminderMsg e.name e.timezone p.1 p.2.1 p.2.2
      ⟨r.sent, sendFailLog e.name :: r.logs⟩

/-- send_daily_reminders, main.py lines 273-308: fetch the events with the
daily reminder enabled and run the per event loop; a store failure is caught
by the outer except and logged (line 306). -/
def send_daily_reminders (db : Store) (storeFail : Bool) (now : Int) : JobResult :=
  if storeFail then ⟨[], [dailyJobErrorLog]⟩
  else remindersLoop now (db.filter (fun e => e.daily_reminder))

/-- The remaining duration as the spec sentence reads it: the stored target
date interpreted as midnight in the given (event) timezone, minus now.
Stated from the spec words, for comparison with the code-following
remainingSeconds and newCountdownEvent. -/
def specRemainingMidnightInTz (dt : Date) (tz : String) (now : Int) : Int :=
  midnightInstant dt tz - now

/-- Row-wise frame relation of /remind and /unremind: a row whose name is
not the given one is untouched; every row keeps name, target date, chat,
creator, creation time and timezone; daily_reminder is either kept or set
to the commanded value. -/
def frameExceptReminder (name : String) (enable : Bool)
    (x y : CountdownEvent) : Prop :=
  (x.name ≠ name → y = x) ∧
  y.name = x.name ∧ y.target_date = x.target_date ∧ y.chat_id = x.chat_id ∧
  y.created_by = x.created_by ∧ y.created_at = x.created_at ∧
  y.timezone = x.timezone ∧
  (y.daily_reminder = x.daily_reminder ∨ y.daily_reminder = enable)

/-- Row-wise frame relation of the timezone selection callback: a row whose
name is not the given one is untouched; every row keeps name, target date,
chat, creator, creation time and daily_reminder; timezone is either kept or
set to the selected value. -/
def frameExceptTimezone (name tz : String) (x y : CountdownEvent) : Prop :=
  (x.name ≠ name → y = x) ∧
  y.name = x.name ∧ y.target_date = x.target_date ∧ y.chat_id = x.chat_id ∧
  y.created_by = x.created_by ∧ y.created_at = x.created_at ∧
  y.daily_reminder = x.daily_reminder ∧
  (y.timezone = x.timezone ∨ y.timezone = tz)

/-! Concrete rows and stores used as inputs of the closed theorems below. -/

/-- A reminder enabled event one day from the reference instant 0. -/
def reminderEvent : CountdownEvent := ⟨1, "trip", 86400, 7, 1, true, 0, "UTC"⟩

/-- Two reminder enabled events in distinct chats, both still due. -/
def reminderEventA : CountdownEvent := ⟨1, "first", 86400, 7, 1, true, 0, "UTC"⟩

def reminderEventB : CountdownEvent := ⟨2, "second", 172800, 8, 2, true, 0, "UTC"⟩

/-- An event whose timezone the user tries to change. -/
def tzEvent : CountdownEvent := ⟨1, "birthday", 0, 5, 9, false, 0, "UTC"⟩

/-- An event whose target equals the reference instant 1000. -/
def boundaryEvent : CountdownEvent := ⟨1, "ev", 1000, 3, 4, false, 0, "UTC"⟩

/-- An event occupying the name taken. -/
def takenEvent : CountdownEvent := ⟨1, "taken", 500, 3, 4, false, 0, "UTC"⟩

/-- Store after /set launch 2030-01-01 from chat 1 by user 2 at instant 0,
under the process default timezone. -/
def launchStore : Store :=
  (set_countdown [] false ["launch", "2030-01-01"] 1 2 0).store

/-- launchStore after the timezone of launch is changed to Asia/Tokyo
through the selection callback. -/
def launchStoreTokyo : Store :=
  (timezone_callback launchStore false "tz_launch_Asia/Tokyo").store

/-- An event of chat 1 and one of chat 2, for the list scoping claim. -/
def chatAEvent : CountdownEvent := ⟨1, "mine", 100, 1, 1, false, 0, "UTC"⟩

def chatBEvent : CountdownEvent := ⟨2, "theirs", 100, 2, 2, false, 0, "UTC"⟩

/-- The event the frame condition claim mutates. -/
def frameEvent : CountdownEvent := ⟨1, "w", 100, 1, 1, false, 0, "UTC"⟩

/-! Helper lemmas shared by the claim theorems. -/

/-- updateFirst relates the old and new store row by row: the first row with
the given name is mapped through f, every other row is kept, so any
relation holding both reflexively and across f holds across updateFirst. -/
theorem forall₂_updateFirst (db : Store) (name : String)
    (f : CountdownEvent → CountdownEvent)
    (R : CountdownEvent → CountdownEvent → Prop)
    (hrefl : ∀ x, R x x) (hupd : ∀ x, x.name = name → R x (f x)) :
    List.Forall₂ R db (updateFirst db name f) := by
  induction db with
  | nil => exact List.Forall₂.nil
  | cons a rest ih =>
    by_cases hx : a.name = name
    · simp only [updateFirst, if_pos hx]
      exact List.Forall₂.cons (hupd a hx)
        (List.forall₂_same.mpr fun x _ => hrefl x)
    · simp only [updateFirst, if_neg hx]
      exact List.Forall₂.cons (hrefl a) ih

/-- A successful lookup splits the store around the first row with the
name, and deleteFirst removes exactly that row. -/
theorem findByName_decomp (db : Store) (name : String) (e : CountdownEvent)
    (h : findByName db name = some e) :
    ∃ l1 l2, db = l1 ++ e :: l2 ∧ (∀ x ∈ l1, x.name ≠ name) ∧
      deleteFirst db name = l1 ++ l2 := by
  induction db with
  | nil => simp [findByName] at h
  | cons a rest ih =>
    by_cases hx : a.name = name
    · have ha : findByName (a :: rest) name = some a := by
        simp [findByName, List.find?_cons, hx]
      rw [ha] at h
      obtain rfl : a = e := by injection h
      exact ⟨[], rest, rfl, by simp, by simp [deleteFirst, hx]⟩
    · have ha : findByName (a :: rest) name = findByName rest name := by
        simp [findByName, List.find?_cons, hx]
      rw [ha] at h
      obtain ⟨l1, l2, h1, h2, h3⟩ := ih h
      refine ⟨a :: l1, l2, by simp [h1], ?_, by simp [deleteFirst, hx, h3]⟩
      intro x hxmem
      rcases List.mem_cons.mp hxmem with rfl | hmem
      · exact hx
      · exact h2 x hmem

/-! The claim theorems. -/

/-- Claim C1 (code_bug): the claim says the daily job pushes a formatted
reminder to the chat of every reminder enabled event that has not passed.
In the code, context is an undefined name inside send_daily_reminders, so
the send of line 298 raises NameError for every due event; the run below
has one reminder enabled, still due event, and the job delivers nothing,
logging the per event failure instead. -/
theorem C1_daily_job_sends_nothing :
    reminderEvent.daily_reminder = true ∧
    ¬ (countdownParts (remainingSeconds reminderEvent.target_date 0)).1 < 0 ∧
    (send_daily_reminders [reminderEvent] false 0).sent = [] ∧
    (send_daily_reminders [reminderEvent] false 0).logs =
      [sendFailLog "trip"] := by
  decide

/-- Claim C2 (code_bug): the claim says selecting any allow-listed timezone
sets the event timezone.  America/New_York is on the allow-list and its
button data is generated by set_timezone itself, yet the callback splits
the data on every underscore, gets four parts instead of three, raises
ValueError at the tuple unpacking, replies the generic error, leaves the
store unchanged, and (db being unbound in the finally clause) lets an
exception escape. -/
theorem C2_selection_breaks_on_underscore :
    "America/New_York" ∈ COMMON_TIMEZONES ∧
    "tz_birthday_America/New_York" ∈ tzKeyboardData "birthday" ∧
    timezone_callback [tzEvent] false "tz_birthday_America/New_York" =
      ⟨[tzEvent], [tzGenericError], true⟩ := by
  decide

/-- Claim C3 (confirmed): for a non-negative remaining duration the
days/hours/minutes of the countdown computation satisfy
days*86400 + hours*3600 + minutes*60 ≤ t < days*86400 + hours*3600 +
(minutes+1)*60 with 0 ≤ hours < 24 and 0 ≤ minutes < 60. -/
theorem C3_decomposition_bounds (t : Int) (_h : 0 ≤ t) :
    (countdownParts t).1 * 86400 + (countdownParts t).2.1 * 3600 +
        (countdownParts t).2.2 * 60 ≤ t ∧
    t < (countdownParts t).1 * 86400 + (countdownParts t).2.1 * 3600 +
        ((countdownParts t).2.2 + 1) * 60 ∧
    0 ≤ (countdownParts t).2.1 ∧ (countdownParts t).2.1 < 24 ∧
    0 ≤ (countdownParts t).2.2 ∧ (countdownParts t).2.2 < 60 := by
  simp only [countdownParts, Timedelta.ofSeconds]
  omega

/-- Witness for C3 at one day, one hour, one minute and one second. -/
theorem C3_decomposition_witness :
    (countdownParts 90061).1 * 86400 + (countdownParts 90061).2.1 * 3600 +
        (countdownParts 90061).2.2 * 60 ≤ (90061 : Int) ∧
    (90061 : Int) < (countdownParts 90061).1 * 86400 +
        (countdownParts 90061).2.1 * 3600 + ((countdownParts 90061).2.2 + 1) * 60 ∧
    0 ≤ (countdownParts 90061).2.1 ∧ (countdownParts 90061).2.1 < 24 ∧
    0 ≤ (countdownParts 90061).2.2 ∧ (countdownParts 90061).2.2 < 60 :=
  C3_decomposition_bounds 90061 (by decide)

/-- Claim C4 (confirmed): a target exactly equal to now is reported as a
zero remaining duration, and a target one second in the past takes the
already-passed branch. -/
theorem C4_boundary_branches (db : Store) (name : String) (e : CountdownEvent)
    (now : Int) (h : findByName db name = some e) :
    (e.target_date = now →
      (get_countdown db false [name] now).replies =
        [countdownMsg name e.timezone 0 0 0]) ∧
    (e.target_date = now - 1 →
      (get_countdown db false [name] now).replies = [eventPassedMsg name]) := by
  constructor
  · intro ht
    have h0 : remainingSeconds e.target_date now = 0 := by
      simp [remainingSeconds, ht]
    have hc : countdownParts 0 = (0, 0, 0) := by decide
    simp [get_countdown, h, h0, hc]
  · intro ht
    have h1 : remainingSeconds e.target_date now = -1 := by
      simp [remainingSeconds, ht]
    have hc : (countdownParts (-1)).1 < 0 := by decide
    simp [get_countdown, h, h1, hc]

/-- Witness for C4: a concrete store in which the target equals now. -/
theorem C4_boundary_witness :
    (get_countdown [boundaryEvent] false ["ev"] 1000).replies =
      [countdownMsg "ev" "UTC" 0 0 0] :=
  (C4_boundary_branches [boundaryEvent] "ev" boundaryEvent 1000 (by decide)).1
    (by decide)

/-- Counterexample to claim C5 as stated: with the name taken already in
the store but an unparsable date argument, set fails with the invalid date
reply, not the duplicate name reply (the store is still unchanged). -/
theorem C5_duplicate_counterexample :
    (findByName [takenEvent] "taken").isSome = true ∧
    (set_countdown [takenEvent] false ["taken", "notadate"] 3 4 0).replies =
      [invalidDateMsg] ∧
    invalidDateMsg ≠ duplicateMsg "taken" ∧
    (set_countdown [takenEvent] false ["taken", "notadate"] 3 4 0).store =
      [takenEvent] := by
  decide

/-- Claim C5 as amended: set with a name already present never creates an
event and leaves the store unchanged; when the date argument parses it
fails with the duplicate name reply, and when it does not parse the
invalid date reply takes precedence. -/
theorem C5_duplicate_rejection (db : Store) (name dateStr : String)
    (rest : List String) (chat user now : Int)
    (h : (findByName db name).isSome = true) :
    (set_countdown db false (name :: dateStr :: rest) chat user now).store = db ∧
    (∀ d, parseDate dateStr = some d →
      (set_countdown db false (name :: dateStr :: rest) chat user now).replies =
        [duplicateMsg name]) ∧
    (parseDate dateStr = none →
      (set_countdown db false (name :: dateStr :: rest) chat user now).replies =
        [invalidDateMsg]) := by
  obtain ⟨e, he⟩ := Option.isSome_iff_exists.mp h
  refine ⟨?_, ?_, ?_⟩
  · cases hp : parseDate dateStr <;> simp [set_countdown, hp, he]
  · intro d hp
    simp [set_countdown, hp, he]
  · intro hp
    simp [set_countdown, hp]

/-- Witness for C5: the duplicate reply on a parsable date. -/
theorem C5_duplicate_witness :
    (set_countdown [takenEvent] false ["taken", "2030-01-01"] 3 4 0).replies =
      [duplicateMsg "taken"] :=
  (C5_duplicate_rejection [takenEvent] "taken" "2030-01-01" [] 3 4 0
    (by decide)).2.1 ⟨2030, 1, 1⟩ (by decide)

/-- Counterexample to claim C6 as stated: create launch for 2030-01-01
under the process default timezone, then change its timezone to Asia/Tokyo
through the callback.  The stored target instant is still midnight of the
date in the default timezone, and the remaining duration the code computes
equals that instant minus now; midnight of the date in the event timezone
(what the claim prescribes) is a different instant, so the claim fails
after the timezone change. -/
theorem C6_midnight_counterexample :
    launchStoreTokyo.map (fun e => e.timezone) = ["Asia/Tokyo"] ∧
    launchStoreTokyo.map (fun e => remainingSeconds e.target_date 0) =
      [specRemainingMidnightInTz ⟨2030, 1, 1⟩ TIMEZONE 0] ∧
    specRemainingMidnightInTz ⟨2030, 1, 1⟩ "Asia/Tokyo" 0 ≠
      specRemainingMidnightInTz ⟨2030, 1, 1⟩ TIMEZONE 0 := by
  decide

/-- Claim C6 as amended: the remaining computation subtracts now from the
stored target instant; that instant is midnight of the given date in the
process default timezone at creation, and changing the timezone attribute
does not move it, because astimezone keeps the instant. -/
theorem C6_target_instant_invariant (e : CountdownEvent) (tz : String)
    (i : Nat) (name : String) (dt : Date) (chat user created now : Int) :
    remainingSeconds (CountdownEvent.target_date { e with timezone := tz }) now =
      remainingSeconds e.target_date now ∧
    remainingSeconds (newCountdownEvent i name dt chat user created).target_date now =
      specRemainingMidnightInTz dt TIMEZONE now :=
  ⟨rfl, rfl⟩

/-- Claim C7 (confirmed): the list query returns only events of the
invoking chat and never one of another chat, and each line carries the
reminder indicator and the remaining days floored at zero. -/
theorem C7_list_chat_scoped (db : Store) (A B now : Int) (hAB : B ≠ A) :
    (∀ e, e ∈ listEvents db A → e.chat_id = A) ∧
    (∀ e, e ∈ db → e.chat_id = B → e ∉ listEvents db A) ∧
    (∀ e, e ∈ listEvents db A →
      listLine now e =
        (if e.daily_reminder then "🔔" else "🔕") ++ " " ++ e.name ++ " (" ++
          e.timezone ++ "): " ++
          toString (max (remainingSeconds e.target_date now / 86400) 0) ++
          " days remaining\n") := by
  refine ⟨?_, ?_, ?_⟩
  · intro e he
    simp only [listEvents, List.mem_filter, beq_iff_eq] at he
    exact he.2
  · intro e _ hB he
    simp only [listEvents, List.mem_filter, beq_iff_eq] at he
    exact hAB (hB ▸ he.2)
  · intro e _
    have hif : (if 0 ≤ remainingSeconds e.target_date now / 86400
          then remainingSeconds e.target_date now / 86400 else 0) =
        max (remainingSeconds e.target_date now / 86400) 0 := by
      rcases le_or_lt 0 (remainingSeconds e.target_date now / 86400) with hle | hlt
      · rw [if_pos hle, max_eq_left hle]
      · rw [if_neg (not_le.mpr hlt), max_eq_right hlt.le]
    simp only [listLine, Timedelta.ofSeconds, hif]

/-- Witness for C7: the chat 1 event is scoped to chat 1 and its line is
the annotated one. -/
theorem C7_list_witness :
    chatAEvent.chat_id = 1 ∧
    listLine 0 chatAEvent =
      (if chatAEvent.daily_reminder then "🔔" else "🔕") ++ " " ++
        chatAEvent.name ++ " (" ++ chatAEvent.timezone ++ "): " ++
        toString (max (remainingSeconds chatAEvent.target_date 0 / 86400) 0) ++
        " days remaining\n" :=
  ⟨(C7_list_chat_scoped [chatAEvent, chatBEvent] 1 2 0 (by decide)).1 chatAEvent
      (by decide),
   (C7_list_chat_scoped [chatAEvent, chatBEvent] 1 2 0 (by decide)).2.2 chatAEvent
      (by decide)⟩

/-- Claim C8 (code_bug): the claim says a delivery failure for one event is
logged and the remaining events are still processed and, if due, sent their
message.  The loop does continue and logs every failure, but because
context is an undefined name every send raises NameError, so the later due
event is processed yet never sent its message: below, both reminder enabled
due events end in the log and the sent list stays empty. -/
theorem C8_isolation_without_delivery :
    send_daily_reminders [reminderEventA, reminderEventB] false 0 =
      ⟨[], [sendFailLog "first", sendFailLog "second"]⟩ := by
  decide

/-- Claim C9 (code_bug): the claim says no handler lets an exception escape
its boundary.  For the callback handler on data whose split does not have
exactly three parts (as produced by the code itself for the
America/New_York button), the ValueError is caught and the error reply
sent, but db is not yet bound when line 87 raises, so db.close() in the
finally clause raises UnboundLocalError, which escapes the handler. -/
theorem C9_callback_exception_escapes :
    (timezone_callback [] false "tz_home_America/New_York").escaped = true ∧
    (timezone_callback [] false "tz_home_America/New_York").replies =
      [tzGenericError] := by
  decide

/-- Claim C10 (confirmed): remind/unremind change at most the
daily_reminder field of the first row with the given name and no other row;
the timezone selection callback changes at most the timezone field of that
row and no other row; delete removes exactly that one row. -/
theorem C10_frame_conditions (db : Store) (name data p tz : String)
    (enable : Bool) (e : CountdownEvent)
    (h : findByName db name = some e)
    (hdata : splitString '_' data = [p, name, tz]) :
    List.Forall₂ (frameExceptReminder name enable) db
      (toggle_reminder db false [name] enable).store ∧
    List.Forall₂ (frameExceptTimezone name tz) db
      (timezone_callback db false data).store ∧
    ∃ l1 l2, db = l1 ++ e :: l2 ∧ (∀ x ∈ l1, x.name ≠ name) ∧
      (delete_countdown db false [name]).store = l1 ++ l2 := by
  refine ⟨?_, ?_, ?_⟩
  · have hs : (toggle_reminder db false [name] enable).store =
        updateFirst db name (fun x => { x with daily_reminder := enable }) := by
      simp [toggle_reminder, h]
    rw [hs]
    refine forall₂_updateFirst db name _ _ (fun x => ?_) (fun x hx => ?_)
    · exact ⟨fun _ => rfl, rfl, rfl, rfl, rfl, rfl, rfl, Or.inl rfl⟩
    · exact ⟨fun hc => absurd hx hc, rfl, rfl, rfl, rfl, rfl, rfl, Or.inr rfl⟩
  · have hs : (timezone_callback db false data).store =
        updateFirst db name (fun x => { x with timezone := tz }) := by
      simp [timezone_callback, hdata, h]
    rw [hs]
    refine forall₂_updateFirst db name _ _ (fun x => ?_) (fun x hx => ?_)
    · exact ⟨fun _ => rfl, rfl, rfl, rfl, rfl, rfl, rfl, Or.inl rfl⟩
    · exact ⟨fun hc => absurd hx hc, rfl, rfl, rfl, rfl, rfl, rfl, Or.inr rfl⟩
  · obtain ⟨l1, l2, h1, h2, h3⟩ := findByName_decomp db name e h
    have hs : (delete_countdown db false [name]).store = deleteFirst db name := by
      simp [delete_countdown, h]
    exact ⟨l1, l2, h1, h2, by rw [hs, h3]⟩

/-- Witness for C10 at a one row store and the UTC selection data. -/
theorem C10_frame_witness :
    List.Forall₂ (frameExceptReminder "w" true) [frameEvent]
      (toggle_reminder [frameEvent] false ["w"] true).store ∧
    List.Forall₂ (frameExceptTimezone "w" "UTC") [frameEvent]
      (timezone_callback [frameEvent] false "tz_w_UTC").store ∧
    ∃ l1 l2, [frameEvent] = l1 ++ frameEvent :: l2 ∧
      (∀ x ∈ l1, x.name ≠ "w") ∧
      (delete_countdown [frameEvent] false ["w"]).store = l1 ++ l2 :=
  C10_frame_conditions [frameEvent] "w" "tz_w_UTC" "tz" "UTC" true frameEvent
    (by decide) (by decide)

end CountdownBot
